import Mathlib

/-!
Verification of the sentiment-analysis agent service.

This file shallowly embeds the Python source of the repository
(Django + Celery multi-agent stock-sentiment analyzer) into Lean 4 and
proves, corrects, or refutes the frozen specification claims about it.

Conventions of the embedding:
* Python `str` is Lean `String` restricted to its ASCII behaviour
  (all tickers, timeframes, status codes and JSON keys in the program are
  ASCII).
* Python `float` in the technical-indicator code is IEEE-754 via
  numpy/pandas; it is modelled by `PyFloat`, rationals extended with
  signed infinities and NaN, with the arithmetic rules the RSI
  computation exercises.
* `json.loads` is an external library call; it is passed as an explicit
  function parameter `jl : String → Option JValue` (`none` = parse error
  raised).
* Database rows are in-memory `AgentRun` values; `timezone.now()` is an
  explicit `Int` parameter; saving is functional record update.
-/

/-- ASCII whitespace characters recognised by Python `str.strip()`. -/
def isPySpace (c : Char) : Bool :=
  c == ' ' || c == '\t' || c == '\n' || c == '\r' || c == '\x0b' || c == '\x0c'

/-- Python `str.strip()` on ASCII text: drop leading and trailing whitespace. -/
def pyStrip (s : String) : String :=
  ⟨(s.toList.dropWhile isPySpace).reverse.dropWhile isPySpace |>.reverse⟩

/-- Python `str.upper()` on ASCII text. -/
def asciiUpper (s : String) : String :=
  ⟨s.toList.map Char.toUpper⟩

/-- Python `str.lower()` on ASCII text. -/
def asciiLower (s : String) : String :=
  ⟨s.toList.map Char.toLower⟩

/-- Python `str.isalnum()` on ASCII text: nonempty and every character
alphanumeric. -/
def pyIsAlnum (s : String) : Bool :=
  !s.toList.isEmpty && s.toList.all Char.isAlphanum

/-- Python string slicing `s[:n]` (take the first `n` characters). -/
def pySliceTo (s : String) (n : Nat) : String :=
  ⟨s.toList.take n⟩

/-- Whether `pat` occurs as a contiguous substring, Python's `pat in s`.
Implemented directly over character lists. -/
def listHasSub (pat s : List Char) : Bool :=
  match s with
  | [] => pat.isEmpty
  | _ :: t => pat.isPrefixOf s || listHasSub pat t

/-- Python `pat in s` for strings. -/
def pyContains (s pat : String) : Bool :=
  listHasSub pat.toList s.toList

/- ================================================================
   src/agents/tasks.py : get_price_data_count
   ================================================================ -/

/-- `get_price_data_count` from `src/agents/tasks.py`:
`timeframe_map.get(timeframe, 30)` over the literal dict. -/
def get_price_data_count (timeframe : String) : Nat :=
  if timeframe = "1d" then 1
  else if timeframe = "5d" then 5
  else if timeframe = "7d" then 7
  else if timeframe = "30d" then 30
  else if timeframe = "90d" then 90
  else if timeframe = "1y" then 252
  else if timeframe = "2y" then 504
  else if timeframe = "5y" then 1260
  else 30

/- ================================================================
   src/back/core/tools.py : PriceAnalysisTool._determine_trend
   src/core/tools.py      : WebSurferTool._determine_trend
   ================================================================ -/

/-- `PriceAnalysisTool._determine_trend` from `src/back/core/tools.py`
(the legacy tool). Prices are pandas floats; only order comparisons are
used, modelled over `ℚ`. `none` models Python `None`. -/
def PriceAnalysisTool_determine_trend (current : ℚ) (ma_20 ma_50 : Option ℚ) : String :=
  match ma_20 with
  | none => "INSUFFICIENT_DATA"
  | some m20 =>
    match ma_50 with
    | none => if current > m20 then "BULLISH" else "BEARISH"
    | some m50 =>
      if current > m20 ∧ m20 > m50 then "STRONG_UPTREND"
      else if current > m20 then "BULLISH"
      else if current < m20 ∧ m20 < m50 then "STRONG_DOWNTREND"
      else "BEARISH"

/-- `WebSurferTool._determine_trend` from `src/core/tools.py`
(the debate-pipeline surfer tool). -/
def WebSurferTool_determine_trend (price : ℚ) (ma_20 ma_50 : Option ℚ) : String :=
  match ma_20 with
  | none => "INSUFFICIENT_DATA"
  | some m20 =>
    match ma_50 with
    | none => if price > m20 then "BULLISH" else "BEARISH"
    | some m50 =>
      if price > m20 ∧ m20 > m50 then "STRONG_UPTREND"
      else if price > m20 then "UPTREND"
      else if price < m20 ∧ m20 < m50 then "STRONG_DOWNTREND"
      else "DOWNTREND"

/-- The trend-classification precedence exactly as the specification words
it, parameterized by one bullish/bearish label pair per call site used
uniformly in every non-strong case (the claim's reading: the legacy tool
uses BULLISH/BEARISH, the surfer tool UPTREND/DOWNTREND throughout). -/
def trend_spec (bull bear : String) (price : ℚ) (ma20 ma50 : Option ℚ) : String :=
  match ma20 with
  | none => "INSUFFICIENT_DATA"
  | some m20 =>
    match ma50 with
    | none => if price > m20 then bull else bear
    | some m50 =>
      if price > m20 ∧ m20 > m50 then "STRONG_UPTREND"
      else if price > m20 then bull
      else if price < m20 ∧ m20 < m50 then "STRONG_DOWNTREND"
      else bear

/-- The trend-classification precedence with the MA50-absent branch's label
pair separated from the both-MAs-present non-strong label pair, which is
how the code actually assigns labels. -/
def trend_spec_split (bullNo50 bearNo50 bull bear : String)
    (price : ℚ) (ma20 ma50 : Option ℚ) : String :=
  match ma20 with
  | none => "INSUFFICIENT_DATA"
  | some m20 =>
    match ma50 with
    | none => if price > m20 then bullNo50 else bearNo50
    | some m50 =>
      if price > m20 ∧ m20 > m50 then "STRONG_UPTREND"
      else if price > m20 then bull
      else if price < m20 ∧ m20 < m50 then "STRONG_DOWNTREND"
      else bear

/- ================================================================
   src/agents/serializers.py : AnalyzeRequestSerializer.validate_ticker
   ================================================================ -/

/-- `AnalyzeRequestSerializer.validate_ticker` from
`src/agents/serializers.py`: strip, upper-case, reject unless alphanumeric,
reject unless 1–10 characters, return the normalized ticker. -/
def validate_ticker (value : String) : Except String String :=
  let ticker := asciiUpper (pyStrip value)
  if pyIsAlnum ticker = false then
    Except.error "Ticker must contain only letters and numbers"
  else if ticker.length < 1 ∨ ticker.length > 10 then
    Except.error "Ticker must be between 1 and 10 characters"
  else
    Except.ok ticker

/-- The acceptance condition as the claim words it: the whitespace-trimmed,
upper-cased form is alphanumeric and between 1 and 10 characters long. -/
def ticker_spec_accepts (value : String) : Bool :=
  let t := asciiUpper (pyStrip value)
  t.toList.all Char.isAlphanum && decide (1 ≤ t.length) && decide (t.length ≤ 10)

/- ================================================================
   src/back/core/tools.py : PriceAnalysisTool._calculate_rsi
   src/core/tools.py      : WebSurferTool._calc_rsi
   ================================================================ -/

/-- IEEE-754 double values as produced by the numpy/pandas arithmetic in
the RSI computation: finite values (modelled exactly as rationals),
the two infinities, and NaN. -/
inductive PyFloat where
  | num (q : ℚ)
  | inf
  | ninf
  | nan
deriving DecidableEq

/-- IEEE negation. -/
def PyFloat.neg : PyFloat → PyFloat
  | num q => num (-q)
  | inf => ninf
  | ninf => inf
  | nan => nan

/-- IEEE addition (first matching row applies). -/
def PyFloat.add : PyFloat → PyFloat → PyFloat
  | nan, _ => nan
  | _, nan => nan
  | inf, ninf => nan
  | ninf, inf => nan
  | inf, _ => inf
  | _, inf => inf
  | ninf, _ => ninf
  | _, ninf => ninf
  | num a, num b => num (a + b)

/-- IEEE subtraction, `a + (-b)`. -/
def PyFloat.sub (a b : PyFloat) : PyFloat := a.add b.neg

/-- IEEE division as numpy performs it on series elements: finite/0
saturates to a signed infinity (0/0 is NaN), finite/∞ is 0. Signed zero
is not distinguished (no reachable computation here divides by a negative
zero). -/
def PyFloat.div : PyFloat → PyFloat → PyFloat
  | nan, _ => nan
  | _, nan => nan
  | inf, inf => nan
  | inf, ninf => nan
  | ninf, inf => nan
  | ninf, ninf => nan
  | num _, inf => num 0
  | num _, ninf => num 0
  | inf, num b => if b < 0 then ninf else inf
  | ninf, num b => if b < 0 then inf else ninf
  | num a, num b =>
      if b = 0 then (if a = 0 then nan else if 0 < a then inf else ninf)
      else num (a / b)

/-- `PriceAnalysisTool._calculate_rsi` from `src/back/core/tools.py`; the
body of `WebSurferTool._calc_rsi` in `src/core/tools.py` is
character-for-character the same computation, so both call sites share
this one embedding.

Faithfulness to the pandas pipeline, for a close series of length n:
* `series.diff()` has NaN at index 0; `delta.where(delta > 0, 0)` turns
  that NaN into 0 (because `NaN > 0` is False), so the gain series is the
  numeric list `0 :: [max-with-0 of each adjacent difference]`, and the
  loss series likewise — no NaN survives in either.
* `.rolling(period).mean()` of an n-element numeric series has a defined
  last element iff n ≥ period, the arithmetic mean of the trailing
  `period` entries; otherwise the last element is NaN.
* `rsi.iloc[-1] if not rsi.empty else 50.0`: the result series is empty
  iff the input is, in which case the Python float 50.0 is returned. -/
def calculate_rsi (series : List ℚ) (period : Nat := 14) : PyFloat :=
  if series.isEmpty then PyFloat.num 50
  else
    let deltas := List.zipWith (fun a b => a - b) series.tail series
    let gain := (0 : ℚ) :: deltas.map (fun d => if 0 < d then d else 0)
    let loss := (0 : ℚ) :: deltas.map (fun d => if d < 0 then -d else 0)
    if series.length < period then PyFloat.nan
    else
      let avgGain := (gain.drop (series.length - period)).sum / (period : ℚ)
      let avgLoss := (loss.drop (series.length - period)).sum / (period : ℚ)
      let rs := PyFloat.div (PyFloat.num avgGain) (PyFloat.num avgLoss)
      PyFloat.sub (PyFloat.num 100)
        (PyFloat.div (PyFloat.num 100) (PyFloat.add (PyFloat.num 1) rs))

/-- A concrete strictly increasing 20-bar close series. -/
def rsiIncSeries : List ℚ :=
  [1, 2, 3, 4, 5, 6, 7, 8, 9, 10, 11, 12, 13, 14, 15, 16, 17, 18, 19, 20]

/-- A concrete strictly decreasing 20-bar close series. -/
def rsiDecSeries : List ℚ :=
  [20, 19, 18, 17, 16, 15, 14, 13, 12, 11, 10, 9, 8, 7, 6, 5, 4, 3, 2, 1]

/- ================================================================
   JSON values and Python dict semantics, shared by the result parsers
   (src/agents/tasks.py) and the tool layer (src/core/tools.py)
   ================================================================ -/

/-- A JSON value as produced by `json.loads`. Python `None` and JSON
`null` are the same runtime object and are both modelled by `null`. -/
inductive JValue where
  | null
  | bool (b : Bool)
  | num (q : ℚ)
  | str (s : String)
  | arr (elems : List JValue)
  | obj (entries : List (String × JValue))

/-- Python dict assignment `d[k] = v` on an insertion-ordered dict:
replace the value in place if the key exists (keeping its position),
otherwise append the new entry. -/
def pyDictSet {α : Type} (entries : List (String × α)) (k : String) (v : α) :
    List (String × α) :=
  if entries.any (fun kv => kv.1 == k) then
    entries.map (fun kv => if kv.1 == k then (kv.1, v) else kv)
  else
    entries ++ [(k, v)]

/-- Python `d.get(k, dflt)` on an insertion-ordered dict. -/
def jget (entries : List (String × JValue)) (k : String) (dflt : JValue) : JValue :=
  match entries.find? (fun kv => kv.1 == k) with
  | some kv => kv.2
  | none => dflt

/-- Python `d.get(k)` (default `None`): `none` when the key is absent. -/
def jgetOpt (entries : List (String × JValue)) (k : String) : Option JValue :=
  (entries.find? (fun kv => kv.1 == k)).map Prod.snd

/-- Python `float(x)` applied to a JSON-decoded value: numbers pass
through exactly, booleans become 0/1, and any other type raises
(modelled as `none`). A decoded string that spells a float literal would
also convert; the embedding treats string inputs as raising, which only
moves those inputs from the success branch to the (identically shaped)
failure branch of the callers and is not relied on by any claim. -/
def pyFloatOfJson : JValue → Option ℚ
  | JValue.num q => some q
  | JValue.bool b => some (if b then 1 else 0)
  | _ => none

/-- Python `int(x)` applied to a JSON-decoded value: numbers truncate
toward zero, booleans become 0/1, anything else raises. -/
def pyIntOfJson : JValue → Option Int
  | JValue.num q => some (if 0 ≤ q then ⌊q⌋ else ⌈q⌉)
  | JValue.bool b => some (if b then 1 else 0)
  | _ => none

/-- Python `x.upper()` on a JSON-decoded value: strings upper-case,
anything else raises (no `upper` attribute). -/
def pyUpperOfJson : JValue → Option String
  | JValue.str s => some (asciiUpper s)
  | _ => none

/-- Python `x[:100]` on a JSON-decoded value: strings and lists slice,
anything else raises `TypeError`. -/
def pySlice100J : JValue → Option JValue
  | JValue.str s => some (JValue.str (pySliceTo s 100))
  | JValue.arr xs => some (JValue.arr (xs.take 100))
  | _ => none

/-- Whether Python `f"{x:.2f}"` succeeds for an optional JSON-decoded
value: floats, ints and booleans format; `None` (a missing key) and every
other type raise `TypeError`. -/
def pyCanFormat2f : Option JValue → Bool
  | some (JValue.num _) => true
  | some (JValue.bool _) => true
  | _ => false

/-- The code-fence normalization shared verbatim by `parse_agent_output`,
`parse_attack_output`, `extract_debate_summary` and `extract_consensus`
in `src/agents/tasks.py`: strip, drop a leading tagged fence, drop a
leading plain fence, drop a trailing fence, strip again (the two leading
checks are sequential `if`s, exactly as in the source). -/
def strip_code_fences (raw : String) : String :=
  let c := pyStrip raw
  let c := if c.startsWith "```json" then c.drop 7 else c
  let c := if c.startsWith "```" then c.drop 3 else c
  let c := if c.endsWith "```" then c.dropRight 3 else c
  pyStrip c

/- ================================================================
   src/agents/tasks.py : result-extraction layer
   ================================================================ -/

/-- The record `parse_agent_output` returns from its `except` branch.
Note it has no `time_horizon` entry, unlike the success record. -/
def analyst_parse_failure (name role reasoning : String) : List (String × JValue) :=
  [("name", JValue.str name), ("role", JValue.str role), ("score", JValue.num 0),
   ("confidence", JValue.num 50), ("reasoning", JValue.str reasoning),
   ("key_data", JValue.str "N/A"), ("bull_case", JValue.str ""),
   ("bear_case", JValue.str "")]

/-- `parse_agent_output` from `src/agents/tasks.py`. The task output's
raw text is `Option String`: `none` models the (exceptional) case in
which the raw text itself could not be obtained, so the local variable
`raw` is unbound in the handler and the reasoning falls back to
"Parse error". `jl` is `json.loads` (`none` = `JSONDecodeError`); a
decoded non-object also lands in the `except` branch because `.get`
raises on it, as do non-convertible score/confidence values. -/
def parse_agent_output (jl : String → Option JValue) (task_output : Option String)
    (name role : String) : List (String × JValue) :=
  match task_output with
  | none => analyst_parse_failure name role "Parse error"
  | some raw =>
    match jl (strip_code_fences raw) with
    | some (JValue.obj parsed) =>
      match pyFloatOfJson (jget parsed "initial_score" (jget parsed "score" (JValue.num 0))),
            pyIntOfJson (jget parsed "confidence" (JValue.num 50)) with
      | some sc, some conf =>
        [("name", JValue.str name), ("role", JValue.str role),
         ("score", JValue.num sc), ("confidence", JValue.num (conf : ℚ)),
         ("reasoning", jget parsed "reasoning" (JValue.str (pySliceTo raw 200))),
         ("key_data", jget parsed "key_data" (JValue.str "N/A")),
         ("bull_case", jget parsed "bull_case" (JValue.str "")),
         ("bear_case", jget parsed "bear_case" (JValue.str "")),
         ("time_horizon", jget parsed "time_horizon" (JValue.str "N/A"))]
      | _, _ => analyst_parse_failure name role (pySliceTo raw 300)
    | _ => analyst_parse_failure name role (pySliceTo raw 300)

/-- `parse_attack_output` from `src/agents/tasks.py`. On the failure
branch `revised_score` is Python `None` (here `JValue.null`), deliberately
different from the 0.0 success default. -/
def parse_attack_output (jl : String → Option JValue) (task_output : Option String) :
    List (String × JValue) :=
  let failure : List (String × JValue) :=
    [("attacks", JValue.obj []), ("revised_score", JValue.null),
     ("confidence_adjustment", JValue.num 0)]
  match task_output with
  | none => failure
  | some raw =>
    match jl (strip_code_fences raw) with
    | some (JValue.obj parsed) =>
      match pyFloatOfJson (jget parsed "revised_score" (JValue.num 0)),
            pyIntOfJson (jget parsed "confidence_adjustment" (JValue.num 0)) with
      | some rs, some ca =>
        [("attacks", jget parsed "attacks" (JValue.obj [])),
         ("revised_score", JValue.num rs),
         ("confidence_adjustment", JValue.num (ca : ℚ))]
      | _, _ => failure
    | _ => failure

/-- The attack-merging step repeated for each analyst in
`parse_debate_outputs`: store the attack record under `attack` and, when
its `revised_score` is not `None`, also store it as `revised_score`. -/
def merge_attack (out attack : List (String × JValue)) : List (String × JValue) :=
  let out1 := pyDictSet out "attack" (JValue.obj attack)
  match jget attack "revised_score" JValue.null with
  | JValue.null => out1
  | v => pyDictSet out1 "revised_score" v

/-- `parse_debate_outputs` from `src/agents/tasks.py`: parse analyst
tasks 1–3, merging attack tasks 4–6 when present. Every function invoked
in its `try` block is total in this embedding, so the `except` branch
(which substitutes three random mock analyst records) is unreachable and
not modelled. -/
def parse_debate_outputs (jl : String → Option JValue) (tasks : List (Option String)) :
    List (List (String × JValue)) :=
  let block (idx attackIdx : Nat) (name role : String) : List (List (String × JValue)) :=
    if tasks.length > idx then
      let out := parse_agent_output jl (tasks.getD idx none) name role
      let out := if tasks.length > attackIdx then
          merge_attack out (parse_attack_output jl (tasks.getD attackIdx none))
        else out
      [out]
    else []
  block 1 4 "Long-Term Value Investor" "value_investor" ++
  block 2 5 "Momentum Swing Trader" "momentum_trader" ++
  block 3 6 "Contrarian Risk Strategist" "contrarian"

/-- `extract_debate_summary` from `src/agents/tasks.py`: parse
`crew.tasks[-2]` when at least two tasks exist; any failure yields `None`
(the debate summary is omitted, not defaulted). -/
def extract_debate_summary (jl : String → Option JValue) (tasks : List (Option String)) :
    Option (List (String × JValue)) :=
  if tasks.length ≥ 2 then
    match tasks.getD (tasks.length - 2) none with
    | none => none
    | some raw =>
      match jl (strip_code_fences raw) with
      | some (JValue.obj parsed) =>
        match pyFloatOfJson (jget parsed "debate_intensity_score" (JValue.num 0)) with
        | some dis =>
          some [("agreements", jget parsed "agreements" (JValue.str "")),
                ("major_conflicts", jget parsed "major_conflicts" (JValue.str "")),
                ("strongest_argument", jget parsed "strongest_argument" (JValue.obj [])),
                ("weakest_argument", jget parsed "weakest_argument" (JValue.obj [])),
                ("debate_intensity_score", JValue.num dis),
                ("unresolved_risks", jget parsed "unresolved_risks" (JValue.arr []))]
        | none => none
      | _ => none
  else none

/-- The `crew.kickoff()` result object: its `tasks_output` list and its
own raw text (used as the chief output when `tasks_output` is empty). -/
structure CrewOutput where
  tasks_output : List (Option String)
  selfRaw : Option String

/-- The record `extract_consensus` returns from its `except` branch. The
source appends the exception text to the reasoning
(`"Parse error: <detail>"`); the detail is elided here — no claim
inspects it. -/
def consensus_parse_failure : List (String × JValue) :=
  [("score", JValue.num 0), ("action", JValue.str "HOLD"),
   ("confidence", JValue.num 0), ("allocation", JValue.num 0),
   ("risk_level", JValue.str "HIGH"), ("reasoning", JValue.str "Parse error")]

/-- `extract_consensus` from `src/agents/tasks.py`: parse the last entry
of `tasks_output` (or the result object's own text when that list is
empty). Note the success record stores the consensus value under the key
`"score"` — there is no `"consensus_score"` key in either branch. -/
def extract_consensus (jl : String → Option JValue) (cres : CrewOutput) :
    List (String × JValue) :=
  let chief_raw : Option String :=
    match cres.tasks_output.getLast? with
    | some r => r
    | none => cres.selfRaw
  match chief_raw with
  | none => consensus_parse_failure
  | some raw =>
    match jl (strip_code_fences raw) with
    | some (JValue.obj parsed) =>
      match pyFloatOfJson (jget parsed "consensus_score" (jget parsed "score" (JValue.num 0))),
            pyIntOfJson (jget parsed "confidence" (JValue.num 50)),
            pyIntOfJson (jget parsed "allocation" (JValue.num 10)),
            pyUpperOfJson (jget parsed "action" (JValue.str "HOLD")),
            pyUpperOfJson (jget parsed "risk_level" (JValue.str "MODERATE")) with
      | some sc, some conf, some alloc, some act, some risk =>
        [("score", JValue.num sc), ("action", JValue.str act),
         ("confidence", JValue.num (conf : ℚ)),
         ("allocation", JValue.num (alloc : ℚ)),
         ("risk_level", JValue.str risk),
         ("reasoning", jget parsed "reasoning" (JValue.str "")),
         ("time_horizon", jget parsed "time_horizon" (JValue.str "N/A")),
         ("key_risks", jget parsed "key_risks" (JValue.arr [])),
         ("analyst_weights_used", jget parsed "analyst_weights_used" (JValue.obj []))]
      | _, _, _, _, _ => consensus_parse_failure
    | _ => consensus_parse_failure

/- ================================================================
   src/back/agents/models.py : AgentRun
   ================================================================ -/

/-- The four values of `AgentRun.STATUS_CHOICES`. -/
inductive RunStatus where
  | pending
  | running
  | completed
  | failed
deriving DecidableEq, BEq

/-- The status string stored in the database column. -/
def statusText : RunStatus → String
  | RunStatus.pending => "PENDING"
  | RunStatus.running => "RUNNING"
  | RunStatus.completed => "COMPLETED"
  | RunStatus.failed => "FAILED"

/-- The `AgentRun` row from `src/back/agents/models.py`. Timestamps are
`Int` seconds; the two JSON text columns are modelled as the decoded
values they serialize (`json.dumps` elided); `none` is SQL NULL. -/
structure AgentRun where
  id : Nat
  ticker : String
  timeframe : String
  include_social : Bool
  status : RunStatus
  agent_outputs : Option JValue
  consensus_data : Option JValue
  created_at : Int
  started_at : Option Int
  completed_at : Option Int
  execution_time : Option Int
  error_message : Option String
  retry_count : Nat
  news_sources_count : Option Nat
  price_data_points : Option Nat

/-- `AgentRun.mark_as_running`. -/
def mark_as_running (now : Int) (r : AgentRun) : AgentRun :=
  { r with status := RunStatus.running, started_at := some now }

/-- `AgentRun.mark_as_completed`. The source guards the assignment with
`if execution_time:`, a truthiness test, so a passed value of 0 (and the
default `None`) leaves the column unchanged. -/
def mark_as_completed (execution_time : Option Int) (now : Int) (r : AgentRun) : AgentRun :=
  let r1 := { r with status := RunStatus.completed, completed_at := some now }
  match execution_time with
  | some t => if t ≠ 0 then { r1 with execution_time := some t } else r1
  | none => r1

/-- `AgentRun.mark_as_failed`. -/
def mark_as_failed (error_msg : String) (now : Int) (r : AgentRun) : AgentRun :=
  { r with
    status := RunStatus.failed
    error_message := some error_msg
    completed_at := some now }

/-- `AgentRun.set_agent_outputs` (the JSON serialization is elided). -/
def set_agent_outputs (data : JValue) (r : AgentRun) : AgentRun :=
  { r with agent_outputs := some data }

/-- `AgentRun.set_consensus_data` (the JSON serialization is elided). -/
def set_consensus_data (data : JValue) (r : AgentRun) : AgentRun :=
  { r with consensus_data := some data }

/- ================================================================
   src/agents/tasks.py : run_agent_analysis (the Celery job)
   ================================================================ -/

/-- What one execution of the Celery task does, seen from outside. -/
inductive TaskOutcome where
  /-- `AgentRun.objects.get` raised: the `except` block then touches the
  unbound local `agent_run` and raises `UnboundLocalError` — no retry, no
  record mutated. -/
  | lookupError
  /-- The task returned its success dict. -/
  | completed
  /-- `self.retry(countdown=...)` was raised; the task will rerun after
  the given number of seconds. -/
  | retryScheduled (countdown : Nat)
  /-- The run was marked FAILED and the exception re-raised. -/
  | failedFinal
deriving DecidableEq

/-- The `except` block of `run_agent_analysis`: increment and persist the
retry counter; below `self.max_retries` (= 2 from the decorator)
re-enqueue with `countdown = 30 * 2 ** retry_count` computed from the
already-incremented counter; otherwise mark FAILED reporting the counter.
The run's status is not touched on the retry branch. -/
def run_agent_analysis_onError (r : AgentRun) (errMsg : String) (now : Int) :
    TaskOutcome × Option AgentRun :=
  let r1 := { r with retry_count := r.retry_count + 1 }
  if r1.retry_count < 2 then
    (TaskOutcome.retryScheduled (30 * 2 ^ r1.retry_count), some r1)
  else
    (TaskOutcome.failedFinal,
     some (mark_as_failed
       ("Failed after " ++ toString r1.retry_count ++ " retries: " ++ errMsg) now r1))

/-- The Debate-Moderator entry appended when a debate summary was
extracted (`tasks.py` lines 61–69). Slicing `major_conflicts` with
`[:100]` raises when that value is neither a string nor a list, which
would divert to the `except` block (`none`). -/
def debate_moderator_entry (d : List (String × JValue)) :
    Option (List (String × JValue)) :=
  match pySlice100J (jget d "major_conflicts" (JValue.str "N/A")) with
  | some kd =>
    some [("name", JValue.str "Debate Moderator"), ("role", JValue.str "debate"),
          ("score", jget d "debate_intensity_score" (JValue.num 0)),
          ("reasoning", jget d "agreements" (JValue.str "")),
          ("confidence", JValue.num 70), ("key_data", kd)]
  | none => none

/-- `run_agent_analysis` from `src/agents/tasks.py`.

Inputs of one execution: the row lookup result, the outcome of
`crew.kickoff()` together with the crew's task list (`Except.error` =
the pipeline raised), the measured `int(time.time() - start_time)`, and
`timezone.now()`.

The `try` block in source order: mark running; run the crew; parse
outputs, consensus and debate summary; then the log statement at line 58
formats `consensus_data.get('consensus_score')` with `:.2f`. Because
`extract_consensus` stores the score under the key `"score"`, that `get`
is always `None` and the format raises `TypeError`, diverting every
execution — including fully successful ones — into the `except` block.
The remainder of the `try` block (moderator append, persisting the
blobs, `news_sources_count`/`price_data_points`, `mark_as_completed`) is
modelled faithfully but unreachable. -/
def run_agent_analysis (jl : String → Option JValue) (lookup : Option AgentRun)
    (crew_outcome : Except String (List (Option String) × CrewOutput))
    (elapsed now : Int) : TaskOutcome × Option AgentRun :=
  match lookup with
  | none => (TaskOutcome.lookupError, none)
  | some run0 =>
    let r := mark_as_running now run0
    match crew_outcome with
    | Except.error e => run_agent_analysis_onError r e now
    | Except.ok (tasks, cres) =>
      let agent_outputs := parse_debate_outputs jl tasks
      let consensus_data := extract_consensus jl cres
      let debate_summary := extract_debate_summary jl tasks
      if pyCanFormat2f (jgetOpt consensus_data "consensus_score") then
        let step : Option (List (List (String × JValue))) :=
          match debate_summary with
          | none => some agent_outputs
          | some d =>
            match debate_moderator_entry d with
            | some entry => some (agent_outputs ++ [entry])
            | none => none
        match step with
        | none =>
          run_agent_analysis_onError r "TypeError: unhashable/unsliceable value" now
        | some outs =>
          let r1 := set_agent_outputs (JValue.arr (outs.map JValue.obj)) r
          let r2 := set_consensus_data (JValue.obj consensus_data) r1
          let r3 := { r2 with
            news_sources_count := some 3
            price_data_points := some (get_price_data_count r2.timeframe) }
          (TaskOutcome.completed, some (mark_as_completed (some elapsed) now r3))
      else
        run_agent_analysis_onError r
          "TypeError: unsupported format string passed to NoneType.__format__" now

/- ================================================================
   src/back/agents/views.py : trigger_analysis, cancel_run
   ================================================================ -/

/-- The predicate of the anti-duplicate query in `trigger_analysis`:
same ticker, status PENDING or RUNNING, created within the last 2
minutes. -/
def is_recent_pending (ticker : String) (recent_cutoff : Int) (r : AgentRun) : Bool :=
  r.ticker == ticker &&
  (r.status == RunStatus.pending || r.status == RunStatus.running) &&
  decide (recent_cutoff ≤ r.created_at)

/-- A fresh `AgentRun.objects.create(...)` row: PENDING, empty results,
zero retries, `created_at` from `auto_now_add`. -/
def new_agent_run (id : Nat) (ticker timeframe : String) (include_social : Bool)
    (now : Int) : AgentRun :=
  { id := id
    ticker := ticker
    timeframe := timeframe
    include_social := include_social
    status := RunStatus.pending
    agent_outputs := none
    consensus_data := none
    created_at := now
    started_at := none
    completed_at := none
    execution_time := none
    error_message := none
    retry_count := 0
    news_sources_count := none
    price_data_points := none }

/-- The JSON body (plus HTTP code) `trigger_analysis` responds with. -/
structure TriggerResponse where
  code : Nat
  run_id : Option Nat
  status : Option String
  estimated_time : Option Nat
  message : Option String
  error : Option String
deriving DecidableEq

/-- The post-validation body of `trigger_analysis` from
`src/back/agents/views.py` (the serializer stage is `validate_ticker` /
`validate_timeframe`, proved separately). The database is the list of
rows in the model's default ordering (`-created_at`), so Django's
`.first()` is the list head. `new_id` is the generated UUID;
`dispatch_error` is `some e` when `run_agent_analysis.delay` raises.
Returns the response and the resulting database. -/
def trigger_analysis (db : List AgentRun) (ticker timeframe : String)
    (include_social : Bool) (now : Int) (new_id : Nat)
    (dispatch_error : Option String) : TriggerResponse × List AgentRun :=
  let recent_cutoff := now - 120
  match (db.filter (is_recent_pending ticker recent_cutoff)).head? with
  | some recent_run =>
    ({ code := 202
       run_id := some recent_run.id
       status := some (statusText recent_run.status)
       estimated_time := some 45
       message := some "Using existing pending analysis"
       error := none }, db)
  | none =>
    let agent_run := new_agent_run new_id ticker timeframe include_social now
    match dispatch_error with
    | none =>
      ({ code := 202
         run_id := some agent_run.id
         status := some "RUNNING"
         estimated_time := some 45
         message := none
         error := none }, db ++ [agent_run])
    | some e =>
      ({ code := 500
         run_id := none
         status := none
         estimated_time := none
         message := none
         error := some "Failed to start analysis task" },
       db ++ [mark_as_failed ("Failed to start task: " ++ e) now agent_run])

/-- The JSON body (plus HTTP code) `cancel_run` responds with. -/
structure CancelResponse where
  code : Nat
  message : Option String
  error : Option String
deriving DecidableEq

/-- `cancel_run` from `src/back/agents/views.py`: 404 when the row is
missing; 400 leaving the row untouched when it is COMPLETED or FAILED;
otherwise mark FAILED with "Cancelled by user". Returns the response and
the row afterwards. -/
def cancel_run (run : Option AgentRun) (now : Int) : CancelResponse × Option AgentRun :=
  match run with
  | none => ({ code := 404, message := none, error := some "Not found." }, none)
  | some r =>
    if r.status = RunStatus.completed ∨ r.status = RunStatus.failed then
      ({ code := 400
         message := none
         error := some ("Cannot cancel " ++ asciiLower (statusText r.status) ++ " run") },
       some r)
    else
      ({ code := 200, message := some "Analysis cancelled", error := none },
       some (mark_as_failed "Cancelled by user" now r))

/-- The operations of claim C3 that touch a run's status: the three model
mutators, the cancel endpoint, and one full orchestrator-job execution. -/
inductive RunOp where
  | markRunning (now : Int)
  | markCompleted (execution_time : Option Int) (now : Int)
  | markFailed (msg : String) (now : Int)
  | cancel (now : Int)
  | orchestratorJob (jl : String → Option JValue)
      (crew_outcome : Except String (List (Option String) × CrewOutput))
      (elapsed now : Int)

/-- Apply one operation to a run record, yielding the stored row
afterwards. -/
def applyRunOp (op : RunOp) (r : AgentRun) : AgentRun :=
  match op with
  | RunOp.markRunning now => mark_as_running now r
  | RunOp.markCompleted et now => mark_as_completed et now r
  | RunOp.markFailed msg now => mark_as_failed msg now r
  | RunOp.cancel now => ((cancel_run (some r) now).2).getD r
  | RunOp.orchestratorJob jl co el now =>
    ((run_agent_analysis jl (some r) co el now).2).getD r

/- ================================================================
   src/core/tools.py : the dataset cache, WebSurferTool caching and
   DatasetReaderTool._run
   ================================================================ -/

/-- The module-level `_DATASET_CACHE` dict: insertion-ordered ticker →
dataset entries, each dataset itself a JSON object's entries. -/
def DatasetCache : Type := List (String × List (String × JValue))

/-- The caching step of `WebSurferTool._run`:
`_DATASET_CACHE[self.ticker] = dataset` (the tool's ticker was
upper-cased in `__init__`). -/
def web_surfer_cache_store (cache : DatasetCache) (ticker : String)
    (dataset : List (String × JValue)) : DatasetCache :=
  pyDictSet cache (asciiUpper ticker) dataset

/-- `DatasetReaderTool._run` from `src/core/tools.py`: error payload on an
empty cache; otherwise read the dataset of `list(_DATASET_CACHE.keys())[0]`
— the FIRST key in insertion order — and select a sub-section by
case-insensitive substring match on the query, checking "news", then
"price", then "social", else return the whole dataset. (The JSON
re-serialization of the returned value is elided.) -/
def dataset_reader_run (cache : DatasetCache) (query : String) : JValue :=
  match cache.head? with
  | none => JValue.obj [("error", JValue.str "No dataset. Web Surfer must run first.")]
  | some (_, dataset) =>
    if pyContains (asciiLower query) "news" then
      JValue.obj [("news_data", jget dataset "news_data" (JValue.obj []))]
    else if pyContains (asciiLower query) "price" then
      JValue.obj [("price_data", jget dataset "price_data" (JValue.obj []))]
    else if pyContains (asciiLower query) "social" then
      JValue.obj [("social_data", jget dataset "social_data" (JValue.obj []))]
    else
      JValue.obj dataset

/-- A fresh PENDING run, as the trigger endpoint creates it. -/
def sampleRun : AgentRun := new_agent_run 1 "TSLA" "30d" true 0

/-- A COMPLETED run. -/
def doneRun : AgentRun :=
  mark_as_completed (some 7) 50 (new_agent_run 2 "AAPL" "30d" true 0)

/-- A run cancelled by the user (status FAILED). -/
def cancelledRun : AgentRun :=
  mark_as_failed "Cancelled by user" 60 (new_agent_run 3 "MSFT" "30d" true 0)

/-- A PENDING run for TSLA created at time 100 (within 2 minutes of the
witness request at time 150). -/
def pendingRun : AgentRun := new_agent_run 7 "TSLA" "30d" true 100

/-- A dataset cached first (for AAPL). -/
def dsAAPL : List (String × JValue) :=
  [("ticker", JValue.str "AAPL"),
   ("news_data", JValue.obj [("count", JValue.num 3)])]

/-- A dataset cached second (for TSLA). -/
def dsTSLA : List (String × JValue) :=
  [("ticker", JValue.str "TSLA")]

/-- C7: `get_price_data_count` maps each valid timeframe code exactly as
{1d:1, 5d:5, 7d:7, 30d:30, 90d:90, 1y:252, 2y:504, 5y:1260} and returns 30
for every other input string. -/
theorem C7_price_data_count :
    get_price_data_count "1d" = 1 ∧ get_price_data_count "5d" = 5 ∧
    get_price_data_count "7d" = 7 ∧ get_price_data_count "30d" = 30 ∧
    get_price_data_count "90d" = 90 ∧ get_price_data_count "1y" = 252 ∧
    get_price_data_count "2y" = 504 ∧ get_price_data_count "5y" = 1260 ∧
    ∀ s : String, s ∉ ["1d", "5d", "7d", "30d", "90d", "1y", "2y", "5y"] →
      get_price_data_count s = 30 := by
  refine ⟨rfl, rfl, rfl, rfl, rfl, rfl, rfl, rfl, ?_⟩
  intro s hs
  simp only [List.mem_cons, List.mem_singleton, not_or] at hs
  obtain ⟨h1, h2, h3, h4, h5, h6, h7, h8⟩ := hs
  simp [get_price_data_count, h1, h2, h3, h4, h5, h6, h7, h8]

/-- Closed witness for C7's universally-quantified default clause,
instantiated at the unrecognized code `"3y"`. -/
theorem C7_price_data_count_witness : get_price_data_count "3y" = 30 :=
  C7_price_data_count.2.2.2.2.2.2.2.2 "3y" (by decide)

/-- C6 counterexample: the claim assigns the web-surfer tool the label set
UPTREND/DOWNTREND for every non-strong case, but at price=110, MA20=105,
MA50 absent the surfer tool returns "BULLISH", not "UPTREND": its
MA50-absent branch uses the legacy BULLISH/BEARISH labels. -/
theorem C6_trend_counterexample :
    WebSurferTool_determine_trend 110 (some 105) none = "BULLISH" ∧
    WebSurferTool_determine_trend 110 (some 105) none ≠
      trend_spec "UPTREND" "DOWNTREND" 110 (some 105) none := by
  constructor
  · rfl
  · decide

/-- C6 amended: both trend classifiers follow the spec's exact precedence —
MA20 absent ⇒ INSUFFICIENT_DATA; else MA50 absent ⇒ BULLISH/BEARISH by
price vs MA20 (in BOTH tools); else price > MA20 > MA50 ⇒ STRONG_UPTREND;
else price > MA20 ⇒ bullish label; else price < MA20 < MA50 ⇒
STRONG_DOWNTREND; else bearish label — where the legacy price-analysis tool
uses BULLISH/BEARISH and the web-surfer tool uses UPTREND/DOWNTREND for the
non-strong cases in which both moving averages are present; in the
MA50-absent branch both tools use BULLISH/BEARISH. -/
theorem C6_trend_precedence (price : ℚ) (ma20 ma50 : Option ℚ) :
    PriceAnalysisTool_determine_trend price ma20 ma50 =
      trend_spec_split "BULLISH" "BEARISH" "BULLISH" "BEARISH" price ma20 ma50 ∧
    WebSurferTool_determine_trend price ma20 ma50 =
      trend_spec_split "BULLISH" "BEARISH" "UPTREND" "DOWNTREND" price ma20 ma50 := by
  constructor <;>
    cases ma20 <;> cases ma50 <;>
      simp [PriceAnalysisTool_determine_trend, WebSurferTool_determine_trend,
        trend_spec_split]

/-- `String.length` agrees with the length of the character list. -/
theorem string_length_toList (s : String) : s.length = s.toList.length := rfl

/-- C4: the analyze-request ticker validator accepts exactly those strings
whose whitespace-trimmed, upper-cased form is alphanumeric and between 1
and 10 characters long, returning that normalized form on acceptance, and
rejects every other string with a validation error. -/
theorem C4_ticker_validation (s : String) :
    (ticker_spec_accepts s = true →
      validate_ticker s = Except.ok (asciiUpper (pyStrip s))) ∧
    (ticker_spec_accepts s = false →
      ∃ m, validate_ticker s = Except.error m) := by
  constructor
  · intro h
    simp only [ticker_spec_accepts, Bool.and_eq_true, decide_eq_true_eq] at h
    obtain ⟨⟨hall, hge⟩, hle⟩ := h
    have hne : (asciiUpper (pyStrip s)).toList.isEmpty = false := by
      rw [List.isEmpty_eq_false_iff_exists_mem]
      rcases hl : (asciiUpper (pyStrip s)).toList with _ | ⟨a, l⟩
      · exfalso
        rw [string_length_toList, hl] at hge
        simp at hge
      · exact ⟨a, by simp⟩
    simp only [validate_ticker]
    rw [if_neg, if_neg]
    · omega
    · have h1 : ¬ (asciiUpper (pyStrip s)).toList = [] := by
        intro hnil
        rw [hnil] at hne
        simp at hne
      have h2 : ∀ x ∈ (asciiUpper (pyStrip s)).toList, x.isAlphanum = true :=
        List.all_eq_true.mp hall
      simp only [pyIsAlnum]
      simp
      exact ⟨h1, h2⟩
  · intro h
    simp only [ticker_spec_accepts, Bool.and_eq_false_iff] at h
    simp only [validate_ticker]
    by_cases ha : pyIsAlnum (asciiUpper (pyStrip s)) = false
    · exact ⟨_, if_pos ha⟩
    · have halnum := eq_true_of_ne_false ha
      simp only [pyIsAlnum, Bool.and_eq_true, Bool.not_eq_true'] at halnum
      obtain ⟨hne, hall⟩ := halnum
      have hge : 1 ≤ (asciiUpper (pyStrip s)).length := by
        rw [string_length_toList]
        rcases hl : (asciiUpper (pyStrip s)).toList with _ | ⟨a, l⟩
        · rw [hl] at hne; simp at hne
        · simp
      have hgt : (asciiUpper (pyStrip s)).length > 10 := by
        rcases h with h' | h'
        · rcases h' with h'' | h''
          · rw [hall] at h''; simp at h''
          · simp only [decide_eq_false_iff_not] at h''; omega
        · simp only [decide_eq_false_iff_not] at h'; omega
      rw [if_neg ha, if_pos (Or.inr hgt)]
      exact ⟨_, rfl⟩

/-- Adjacent differences of a strictly increasing series are positive. -/
theorem diffs_pos {l : List ℚ} (h : l.Chain' (· < ·)) :
    ∀ d ∈ List.zipWith (fun a b => a - b) l.tail l, 0 < d := by
  induction l with
  | nil => simp
  | cons a t ih =>
    cases t with
    | nil => simp
    | cons b u =>
      rw [List.chain'_cons] at h
      intro d hd
      simp only [List.tail_cons, List.zipWith_cons_cons] at hd
      rcases List.mem_cons.mp hd with h1 | h2
      · rw [h1]
        exact sub_pos.mpr h.1
      · exact ih h.2 d (by simpa using h2)

/-- Adjacent differences of a strictly decreasing series are negative. -/
theorem diffs_neg {l : List ℚ} (h : l.Chain' (· > ·)) :
    ∀ d ∈ List.zipWith (fun a b => a - b) l.tail l, d < 0 := by
  induction l with
  | nil => simp
  | cons a t ih =>
    cases t with
    | nil => simp
    | cons b u =>
      rw [List.chain'_cons] at h
      intro d hd
      simp only [List.tail_cons, List.zipWith_cons_cons] at hd
      rcases List.mem_cons.mp hd with h1 | h2
      · rw [h1]
        exact sub_neg.mpr h.1
      · exact ih h.2 d (by simpa using h2)

/-- C8: for every strictly increasing close series of at least 20 bars
RSI(14) is 100; for every strictly decreasing such series it is 0; for
the empty series it defaults to 50.0. -/
theorem C8_rsi_saturation (l : List ℚ) :
    (l = [] → calculate_rsi l 14 = PyFloat.num 50) ∧
    (20 ≤ l.length → l.Chain' (· < ·) → calculate_rsi l 14 = PyFloat.num 100) ∧
    (20 ≤ l.length → l.Chain' (· > ·) → calculate_rsi l 14 = PyFloat.num 0) := by
  refine ⟨?_, ?_, ?_⟩
  · intro h
    subst h
    rfl
  · intro hlen hch
    have hne : l.isEmpty = false := by
      cases l
      · simp at hlen
      · rfl
    have hnlt : ¬ l.length < 14 := by omega
    have hloss : (((0:ℚ) :: (List.zipWith (fun a b => a - b) l.tail l).map
        (fun d => if d < 0 then -d else 0)).drop (l.length - 14)).sum = 0 := by
      apply List.sum_eq_zero
      intro x hx
      have hx' := List.mem_of_mem_drop hx
      rcases List.mem_cons.mp hx' with h | h
      · exact h
      · obtain ⟨d, hd, rfl⟩ := List.mem_map.mp h
        have hdp := diffs_pos hch d hd
        simp [not_lt.mpr (le_of_lt hdp)]
    have hlth : (List.zipWith (fun a b => a - b) l.tail l).length = l.length - 1 := by
      rw [List.length_zipWith, List.length_tail]
      omega
    have hgain : 0 < (((0:ℚ) :: (List.zipWith (fun a b => a - b) l.tail l).map
        (fun d => if 0 < d then d else 0)).drop (l.length - 14)).sum := by
      have hk : l.length - 14 = (l.length - 15) + 1 := by omega
      rw [hk, List.drop_succ_cons]
      apply List.sum_pos
      · intro x hx
        have hx' := List.mem_of_mem_drop hx
        obtain ⟨d, hd, rfl⟩ := List.mem_map.mp hx'
        have hdp := diffs_pos hch d hd
        simp [hdp]
      · intro hnil
        have hlenn := congrArg List.length hnil
        rw [List.length_drop, List.length_map, hlth] at hlenn
        simp at hlenn
        omega
    simp only [calculate_rsi, hne, Bool.false_eq_true, if_false, if_neg hnlt]
    rw [hloss]
    have h0 : (0:ℚ) / ((14 : Nat) : ℚ) = 0 := by norm_num
    rw [h0]
    have hGq : 0 < (((0:ℚ) :: (List.zipWith (fun a b => a - b) l.tail l).map
        (fun d => if 0 < d then d else 0)).drop (l.length - 14)).sum / ((14 : Nat) : ℚ) :=
      div_pos hgain (by norm_num)
    simp [PyFloat.div, PyFloat.add, PyFloat.sub, PyFloat.neg, hGq, hGq.ne', hgain, hgain.ne']
  · intro hlen hch
    have hne : l.isEmpty = false := by
      cases l
      · simp at hlen
      · rfl
    have hnlt : ¬ l.length < 14 := by omega
    have hgain0 : (((0:ℚ) :: (List.zipWith (fun a b => a - b) l.tail l).map
        (fun d => if 0 < d then d else 0)).drop (l.length - 14)).sum = 0 := by
      apply List.sum_eq_zero
      intro x hx
      have hx' := List.mem_of_mem_drop hx
      rcases List.mem_cons.mp hx' with h | h
      · exact h
      · obtain ⟨d, hd, rfl⟩ := List.mem_map.mp h
        have hdn := diffs_neg hch d hd
        simp [not_lt.mpr (le_of_lt hdn)]
    have hlth : (List.zipWith (fun a b => a - b) l.tail l).length = l.length - 1 := by
      rw [List.length_zipWith, List.length_tail]
      omega
    have hloss : 0 < (((0:ℚ) :: (List.zipWith (fun a b => a - b) l.tail l).map
        (fun d => if d < 0 then -d else 0)).drop (l.length - 14)).sum := by
      have hk : l.length - 14 = (l.length - 15) + 1 := by omega
      rw [hk, List.drop_succ_cons]
      apply List.sum_pos
      · intro x hx
        have hx' := List.mem_of_mem_drop hx
        obtain ⟨d, hd, rfl⟩ := List.mem_map.mp hx'
        have hdn := diffs_neg hch d hd
        simp only [if_pos hdn]
        exact neg_pos.mpr hdn
      · intro hnil
        have hlenn := congrArg List.length hnil
        rw [List.length_drop, List.length_map, hlth] at hlenn
        simp at hlenn
        omega
    simp only [calculate_rsi, hne, Bool.false_eq_true, if_false, if_neg hnlt]
    rw [hgain0]
    have h0 : (0:ℚ) / ((14 : Nat) : ℚ) = 0 := by norm_num
    rw [h0]
    have hLq : 0 < (((0:ℚ) :: (List.zipWith (fun a b => a - b) l.tail l).map
        (fun d => if d < 0 then -d else 0)).drop (l.length - 14)).sum / ((14 : Nat) : ℚ) :=
      div_pos hloss (by norm_num)
    simp [PyFloat.div, PyFloat.add, PyFloat.sub, PyFloat.neg, hLq.ne', hloss.ne']

/-- Closed witness for C8 at concrete 20-bar monotone series and the empty
series. -/
theorem C8_rsi_saturation_witness :
    calculate_rsi rsiIncSeries 14 = PyFloat.num 100 ∧
    calculate_rsi rsiDecSeries 14 = PyFloat.num 0 ∧
    calculate_rsi [] 14 = PyFloat.num 50 :=
  ⟨(C8_rsi_saturation rsiIncSeries).2.1 (by decide)
      (by norm_num [rsiIncSeries, List.chain'_cons]),
   (C8_rsi_saturation rsiDecSeries).2.2 (by decide)
      (by norm_num [rsiDecSeries, List.chain'_cons]),
   (C8_rsi_saturation []).1 rfl⟩

/- ================================================================
   Claim theorems: C1, C2, C3
   ================================================================ -/

/-- `extract_consensus` never emits a `"consensus_score"` key: its success
record stores the value under `"score"`, and its failure record likewise
has no such key. This is the key mismatch behind the C1 code bug. -/
theorem extract_consensus_no_consensus_score_key (jl : String → Option JValue)
    (cres : CrewOutput) :
    jgetOpt (extract_consensus jl cres) "consensus_score" = none := by
  simp only [extract_consensus]
  repeat' split
  all_goals rfl

/-- C1 (code bug): whenever the run record exists and the pipeline
(`crew.kickoff()`) succeeds, the job still never reaches the persistence
steps: the log statement at `src/agents/tasks.py` line 58 formats
`consensus_data.get('consensus_score')` with `:.2f`, but the consensus
record's key is `"score"`, so the value is `None` and formatting raises
`TypeError`. Every such execution is diverted into the retry/failure
handler: the outcome is never the success return, the stored status is
never COMPLETED, and `news_sources_count` is left unchanged (never set
to 3) — contradicting the claim. -/
theorem C1_success_path_never_completes (jl : String → Option JValue) (r : AgentRun)
    (tasks : List (Option String)) (cres : CrewOutput) (elapsed now : Int) :
    run_agent_analysis jl (some r) (Except.ok (tasks, cres)) elapsed now =
      run_agent_analysis_onError (mark_as_running now r)
        "TypeError: unsupported format string passed to NoneType.__format__" now ∧
    (run_agent_analysis jl (some r) (Except.ok (tasks, cres)) elapsed now).1 ≠
      TaskOutcome.completed ∧
    (run_agent_analysis jl (some r) (Except.ok (tasks, cres)) elapsed now).2.map
      AgentRun.status ≠ some RunStatus.completed ∧
    (run_agent_analysis jl (some r) (Except.ok (tasks, cres)) elapsed now).2.map
      AgentRun.news_sources_count = some r.news_sources_count := by
  have hfmt : pyCanFormat2f (jgetOpt (extract_consensus jl cres) "consensus_score")
      = false := by
    rw [extract_consensus_no_consensus_score_key]
    rfl
  have hrun : run_agent_analysis jl (some r) (Except.ok (tasks, cres)) elapsed now =
      run_agent_analysis_onError (mark_as_running now r)
        "TypeError: unsupported format string passed to NoneType.__format__" now := by
    simp only [run_agent_analysis, hfmt, Bool.false_eq_true, if_false]
  refine ⟨hrun, ?_, ?_, ?_⟩
  · rw [hrun]
    simp only [run_agent_analysis_onError]
    split_ifs <;> simp
  · rw [hrun]
    simp only [run_agent_analysis_onError]
    split_ifs <;> simp [mark_as_running, mark_as_failed]
  · rw [hrun]
    simp only [run_agent_analysis_onError]
    split_ifs <;> simp [mark_as_running, mark_as_failed]

/-- C2 counterexample: with the retry counter at 0, the first failure
re-enqueues with a countdown of 60 seconds — not the claimed 30 — because
the counter is incremented before `30 * 2 ** retry_count` is computed;
and the second failure already produces the terminal FAILED outcome,
whereas the claim requires a second re-enqueue (60 s) and a third failure
before the terminal marking. -/
theorem C2_retry_counterexample :
    (run_agent_analysis (fun _ => none) (some sampleRun)
        (Except.error "boom") 5 10).1 = TaskOutcome.retryScheduled 60 ∧
    TaskOutcome.retryScheduled 60 ≠ TaskOutcome.retryScheduled 30 ∧
    (run_agent_analysis (fun _ => none)
        (some { mark_as_running 10 sampleRun with retry_count := 1 })
        (Except.error "boom") 5 20).1 = TaskOutcome.failedFinal :=
  ⟨rfl, by decide, rfl⟩

/-- C2 amended: on each failure the retry counter is incremented and
persisted; the first failure (counter 0 → 1) re-enqueues with delay
`30 × 2^1 = 60` seconds while the run stays RUNNING; the second failure
(counter 1 → 2) is already terminal: the run is marked FAILED with the
message "Failed after 2 retries: …". There is no 30-second delay and no
third failure. -/
theorem C2_retry_schedule (jl : String → Option JValue) (r : AgentRun) (e : String)
    (el now now2 : Int) (h : r.retry_count = 0) :
    run_agent_analysis jl (some r) (Except.error e) el now =
      (TaskOutcome.retryScheduled 60,
       some { mark_as_running now r with retry_count := 1 }) ∧
    ({ mark_as_running now r with retry_count := 1 } : AgentRun).status =
      RunStatus.running ∧
    run_agent_analysis jl (some { mark_as_running now r with retry_count := 1 })
        (Except.error e) el now2 =
      (TaskOutcome.failedFinal,
       some (mark_as_failed ("Failed after 2 retries: " ++ e) now2
         { mark_as_running now2 { mark_as_running now r with retry_count := 1 } with
             retry_count := 2 })) := by
  refine ⟨?_, rfl, ?_⟩
  · simp [run_agent_analysis, run_agent_analysis_onError, mark_as_running, h]
  · simp [run_agent_analysis, run_agent_analysis_onError, mark_as_running,
      mark_as_failed]
    rfl

/-- Closed witness for C2's amended behavior at a concrete fresh run. -/
theorem C2_retry_schedule_witness :
    run_agent_analysis (fun _ => none) (some sampleRun) (Except.error "LLM down") 5 10 =
      (TaskOutcome.retryScheduled 60,
       some { mark_as_running 10 sampleRun with retry_count := 1 }) :=
  (C2_retry_schedule (fun _ => none) sampleRun "LLM down" 5 10 20 rfl).1

/-- C3 counterexample: the model's mark operations are unguarded, so
terminal states are not preserved under all operation sequences —
`mark_as_running` moves a COMPLETED run back to RUNNING, and one
orchestrator-job execution on a cancelled (FAILED) run also sets it
RUNNING (and leaves it RUNNING, a retry being scheduled). -/
theorem C3_terminal_counterexample :
    doneRun.status = RunStatus.completed ∧
    (applyRunOp (RunOp.markRunning 100) doneRun).status = RunStatus.running ∧
    RunStatus.running ≠ RunStatus.completed ∧
    cancelledRun.status = RunStatus.failed ∧
    (applyRunOp (RunOp.orchestratorJob (fun _ => none) (Except.error "boom") 5 100)
        cancelledRun).status = RunStatus.running :=
  ⟨rfl, rfl, by decide, rfl, rfl⟩

/-- C3 amended: the status after each operation is fully characterized —
mark-running always yields RUNNING, mark-completed always COMPLETED,
mark-failed always FAILED, regardless of the previous status (so the
claimed no-reversal invariant holds only for the guarded cancel
operation, not for arbitrary sequences); cancel alone checks for a
terminal state: on a COMPLETED or FAILED run it answers 400 and leaves
the record unchanged, otherwise it answers 200 and marks the run FAILED
with "Cancelled by user". -/
theorem C3_status_transitions (r : AgentRun) (now : Int) (msg : String)
    (et : Option Int) :
    (applyRunOp (RunOp.markRunning now) r).status = RunStatus.running ∧
    (applyRunOp (RunOp.markCompleted et now) r).status = RunStatus.completed ∧
    (applyRunOp (RunOp.markFailed msg now) r).status = RunStatus.failed ∧
    applyRunOp (RunOp.cancel now) r =
      (if r.status = RunStatus.completed ∨ r.status = RunStatus.failed then r
       else mark_as_failed "Cancelled by user" now r) ∧
    (cancel_run (some r) now).1.code =
      (if r.status = RunStatus.completed ∨ r.status = RunStatus.failed then 400
       else 200) := by
  refine ⟨rfl, ?_, rfl, ?_, ?_⟩
  · simp only [applyRunOp, mark_as_completed]
    cases et with
    | none => rfl
    | some t =>
      by_cases ht : t ≠ 0
      · simp [ht]
      · simp [ht]
  · by_cases hterm : r.status = RunStatus.completed ∨ r.status = RunStatus.failed
    · simp [applyRunOp, cancel_run, hterm]
    · simp [applyRunOp, cancel_run, hterm]
  · by_cases hterm : r.status = RunStatus.completed ∨ r.status = RunStatus.failed
    · simp [cancel_run, hterm]
    · simp [cancel_run, hterm]

/- ================================================================
   Claim theorems: C5, C9, C10
   ================================================================ -/

/-- C5: when some run in the database matches the anti-duplicate query
(same ticker, PENDING or RUNNING, created within the last 2 minutes), the
trigger endpoint answers with an existing matching run's id and the
message "Using existing pending analysis" and creates no new record; when
no run matches (and dispatch succeeds), a new PENDING record is created
and its id returned. -/
theorem C5_duplicate_suppression (db : List AgentRun) (ticker timeframe : String)
    (include_social : Bool) (now : Int) (new_id : Nat) (de : Option String) :
    ((∃ r ∈ db, is_recent_pending ticker (now - 120) r = true) →
      (trigger_analysis db ticker timeframe include_social now new_id de).2 = db ∧
      (trigger_analysis db ticker timeframe include_social now new_id de).1.message =
        some "Using existing pending analysis" ∧
      ∃ r ∈ db, is_recent_pending ticker (now - 120) r = true ∧
        (trigger_analysis db ticker timeframe include_social now new_id de).1.run_id =
          some r.id) ∧
    ((∀ r ∈ db, is_recent_pending ticker (now - 120) r = false) → de = none →
      (trigger_analysis db ticker timeframe include_social now new_id de).2 =
        db ++ [new_agent_run new_id ticker timeframe include_social now] ∧
      (new_agent_run new_id ticker timeframe include_social now).status =
        RunStatus.pending ∧
      (trigger_analysis db ticker timeframe include_social now new_id de).1.run_id =
        some new_id) := by
  rcases hfl : db.filter (is_recent_pending ticker (now - 120)) with _ | ⟨r0, rest⟩
  · constructor
    · rintro ⟨r, hr, hp⟩
      exfalso
      have hmem : r ∈ db.filter (is_recent_pending ticker (now - 120)) :=
        List.mem_filter.mpr ⟨hr, hp⟩
      rw [hfl] at hmem
      simp at hmem
    · intro _ hde
      subst hde
      refine ⟨?_, rfl, ?_⟩ <;> simp only [trigger_analysis, hfl, List.head?] <;> rfl
  · have hr0f : r0 ∈ db.filter (is_recent_pending ticker (now - 120)) := by
      rw [hfl]
      exact List.mem_cons_self r0 rest
    have hr0 : r0 ∈ db := List.mem_of_mem_filter hr0f
    have hp0 : is_recent_pending ticker (now - 120) r0 = true :=
      List.of_mem_filter hr0f
    constructor
    · intro _
      refine ⟨?_, ?_, ⟨r0, hr0, hp0, ?_⟩⟩ <;>
        simp only [trigger_analysis, hfl, List.head?]
    · intro hall _
      exfalso
      have hcontra := hall r0 hr0
      rw [hp0] at hcontra
      simp at hcontra

/-- Closed witness for C5: a duplicate trigger reuses run 7 without
creating a record; a trigger against an empty database creates the new
PENDING run 8. -/
theorem C5_duplicate_suppression_witness :
    ((trigger_analysis [pendingRun] "TSLA" "30d" true 150 8 none).2 = [pendingRun] ∧
     (trigger_analysis [pendingRun] "TSLA" "30d" true 150 8 none).1.message =
       some "Using existing pending analysis" ∧
     ∃ r ∈ [pendingRun], is_recent_pending "TSLA" (150 - 120) r = true ∧
       (trigger_analysis [pendingRun] "TSLA" "30d" true 150 8 none).1.run_id =
         some r.id) ∧
    ((trigger_analysis [] "TSLA" "30d" true 150 8 none).2 =
       [] ++ [new_agent_run 8 "TSLA" "30d" true 150] ∧
     (new_agent_run 8 "TSLA" "30d" true 150).status = RunStatus.pending ∧
     (trigger_analysis [] "TSLA" "30d" true 150 8 none).1.run_id = some 8) :=
  ⟨(C5_duplicate_suppression [pendingRun] "TSLA" "30d" true 150 8 none).1
      ⟨pendingRun, List.mem_cons_self pendingRun [], by decide⟩,
   (C5_duplicate_suppression [] "TSLA" "30d" true 150 8 none).2
      (by intro r hr; simp at hr) rfl⟩

/-- C9 counterexample: the failure record is NOT of the same shape as the
success record — the success record carries a `time_horizon` key, the
failure record does not. -/
theorem C9_shape_counterexample :
    ((parse_agent_output (fun _ => none) (some "not json")
        "Long-Term Value Investor" "value_investor").map Prod.fst) ≠
      ((parse_agent_output (fun _ => some (JValue.obj [])) (some "{}")
          "Long-Term Value Investor" "value_investor").map Prod.fst) ∧
    "time_horizon" ∈ ((parse_agent_output (fun _ => some (JValue.obj [])) (some "{}")
        "Long-Term Value Investor" "value_investor").map Prod.fst) ∧
    "time_horizon" ∉ ((parse_agent_output (fun _ => none) (some "not json")
        "Long-Term Value Investor" "value_investor").map Prod.fst) := by
  refine ⟨by decide, by decide, by decide⟩

/-- C9 amended: on every raw output whose fence-stripped text fails JSON
parsing, the analyst-output extractor returns — without raising — a record
with the success shape minus the `time_horizon` field: score 0.0,
confidence 50, reasoning = the first 300 characters of the raw text,
key_data "N/A", empty bull_case and bear_case; when the raw text itself is
unavailable the reasoning is "Parse error". -/
theorem C9_parse_failure_defaults (jl : String → Option JValue)
    (raw name role : String) (h : jl (strip_code_fences raw) = none) :
    parse_agent_output jl (some raw) name role =
      [("name", JValue.str name), ("role", JValue.str role),
       ("score", JValue.num 0), ("confidence", JValue.num 50),
       ("reasoning", JValue.str (pySliceTo raw 300)),
       ("key_data", JValue.str "N/A"), ("bull_case", JValue.str ""),
       ("bear_case", JValue.str "")] ∧
    parse_agent_output jl none name role =
      [("name", JValue.str name), ("role", JValue.str role),
       ("score", JValue.num 0), ("confidence", JValue.num 50),
       ("reasoning", JValue.str "Parse error"),
       ("key_data", JValue.str "N/A"), ("bull_case", JValue.str ""),
       ("bear_case", JValue.str "")] := by
  constructor
  · simp only [parse_agent_output, h]
    rfl
  · rfl

/-- Closed witness for C9's amended failure record at a concrete
unparsable output. -/
theorem C9_parse_failure_defaults_witness :
    parse_agent_output (fun _ => none) (some "oops")
        "Momentum Swing Trader" "momentum_trader" =
      [("name", JValue.str "Momentum Swing Trader"),
       ("role", JValue.str "momentum_trader"),
       ("score", JValue.num 0), ("confidence", JValue.num 50),
       ("reasoning", JValue.str (pySliceTo "oops" 300)),
       ("key_data", JValue.str "N/A"), ("bull_case", JValue.str ""),
       ("bear_case", JValue.str "")] :=
  (C9_parse_failure_defaults (fun _ => none) "oops"
    "Momentum Swing Trader" "momentum_trader" rfl).1

/-- C10 counterexample: after caching AAPL's dataset and then TSLA's, the
reader returns AAPL's dataset — the FIRST-inserted cache entry — not the
most recently cached one (TSLA's), contradicting the claim. -/
theorem C10_reader_counterexample :
    dataset_reader_run
        (web_surfer_cache_store
          (web_surfer_cache_store [] "AAPL" dsAAPL) "TSLA" dsTSLA) "" =
      JValue.obj dsAAPL ∧
    JValue.obj dsAAPL ≠ JValue.obj dsTSLA := by
  constructor
  · rfl
  · intro h
    simp [dsAAPL, dsTSLA] at h

/-- C10 amended: the reader returns the explicit error payload when the
cache is empty; otherwise it reads the dataset of the FIRST-INSERTED
cache entry (which coincides with the most recently cached one only while
the cache holds a single entry, the situation in practice) and returns
the news, price, or social sub-section by case-insensitive substring
check on the query in that precedence, else the entire dataset; caching a
dataset under any new ticker leaves the reader's output unchanged. -/
theorem C10_reader_first_entry (t : String) (ds : List (String × JValue))
    (rest : DatasetCache) (query : String) :
    dataset_reader_run [] query =
      JValue.obj [("error", JValue.str "No dataset. Web Surfer must run first.")] ∧
    dataset_reader_run ((t, ds) :: rest) query =
      (if pyContains (asciiLower query) "news" then
        JValue.obj [("news_data", jget ds "news_data" (JValue.obj []))]
      else if pyContains (asciiLower query) "price" then
        JValue.obj [("price_data", jget ds "price_data" (JValue.obj []))]
      else if pyContains (asciiLower query) "social" then
        JValue.obj [("social_data", jget ds "social_data" (JValue.obj []))]
      else JValue.obj ds) ∧
    (∀ t2 ds2,
      ((t, ds) :: rest).any (fun kv => kv.1 == asciiUpper t2) = false →
      dataset_reader_run (web_surfer_cache_store ((t, ds) :: rest) t2 ds2) query =
        dataset_reader_run ((t, ds) :: rest) query) := by
  refine ⟨rfl, rfl, ?_⟩
  intro t2 ds2 hany
  simp only [web_surfer_cache_store, pyDictSet, hany, Bool.false_eq_true, if_false,
    List.cons_append]
  rfl

/-- Closed witness for C10's amended behavior: a news query against a
one-entry cache, and invariance of the reader under caching a second
ticker. -/
theorem C10_reader_first_entry_witness :
    dataset_reader_run
        (web_surfer_cache_store [("AAPL", dsAAPL)] "msft"
          [("ticker", JValue.str "MSFT")]) "latest NEWS please" =
      dataset_reader_run [("AAPL", dsAAPL)] "latest NEWS please" :=
  (C10_reader_first_entry "AAPL" dsAAPL [] "latest NEWS please").2.2 "msft"
    [("ticker", JValue.str "MSFT")] (by decide)

/-- Closed witness for C4 at a concrete accepted string (trimmed and
upper-cased to TSLA) and a concrete rejected over-long string. -/
theorem C4_ticker_validation_witness :
    validate_ticker "  tsla " = Except.ok (asciiUpper (pyStrip "  tsla ")) ∧
    (∃ m, validate_ticker "TOOLONGTICKER1" = Except.error m) :=
  ⟨(C4_ticker_validation "  tsla ").1 (by decide),
   (C4_ticker_validation "TOOLONGTICKER1").2 (by decide)⟩
